import Mathlib

/-!
Verification development for the expense-tracker backend
(`src/backend/server.js`).

The backend is a thin Express HTTP layer over a Mongo document store.
We shallowly embed the pieces the specification talks about:

* a model of JavaScript runtime values (`JSVal`) with JS truthiness and
  the `Number()` coercion restricted to decimal string literals, which is
  all the handlers use;
* the expense record (`Expense`) following `expenseSchema`;
* the CORS origin policy (`ALLOWED_ORIGINS`, `corsOrigin`) from the
  `cors({ origin: ... })` callback;
* the two protected route handlers `GET /expenses` (`getExpenses`) and
  `POST /expenses` (`postExpenses`).  The Mongo driver is external to the
  repository, so persistence outcomes (`Expense.find` / `save` succeeding
  or throwing) are passed in as an explicit `Except String Unit`
  parameter, and the store itself is a `List Expense` with `find`+`sort`
  modelled as filter-then-sort and a successful `save` as an append;
* the startup lifecycle (`mongoose.connect(...).catch(err =>
  process.exit(1))` together with `app.listen`) as a tiny process-state
  machine.

The authenticated identity `req.user.id` is produced by the auth
middleware (a separate file of the repository); handlers receive it as
the `userId` argument, which is exactly how the code consumes it.
-/

/-- Model of the JavaScript values the handlers manipulate: `undefined`,
`null`, booleans, (non-NaN) numbers as rationals, `NaN`, and strings. -/
inductive JSVal where
  | undef
  | nullv
  | bool (b : Bool)
  | num (q : ℚ)
  | nan
  | str (s : String)
deriving DecidableEq, Repr

namespace JSVal

/-- JavaScript truthiness: `undefined`, `null`, `NaN`, `0`, `false` and
the empty string are falsy; everything else is truthy.  This is what the
`!description || !amount` guard in the POST handler evaluates. -/
def truthy : JSVal → Bool
  | .undef => false
  | .nullv => false
  | .nan => false
  | .bool b => b
  | .num q => decide (q ≠ 0)
  | .str s => decide (s ≠ "")

end JSVal

/-- Value of a list of decimal digit characters, most significant
first (`digitsVal [] = 0`). -/
def digitsVal (cs : List Char) : ℕ :=
  cs.foldl (fun n c => 10 * n + (c.toNat - 48)) 0

/-- Strip an optional leading sign, returning the sign as `±1` together
with the remaining characters. -/
def stripSign : List Char → ℤ × List Char
  | [] => (1, [])
  | c :: rest =>
      if c = '-' then (-1, rest)
      else if c = '+' then (1, rest)
      else (1, c :: rest)

/-- Split an unsigned literal at the first `'.'`: integer digits, and
the characters after the dot when a dot is present. -/
def decimalParts (cs : List Char) : List Char × Option (List Char) :=
  match cs.span (fun c => c != '.') with
  | (ip, []) => (ip, none)
  | (ip, _ :: fp) => (ip, some fp)

/-- Well-formedness of an unsigned decimal literal: digits optionally
split by one dot, with at least one digit overall (so `"3"`, `"3.50"`,
`"3."` and `".5"` are well-formed; `""`, `"."`, `"1.2.3"` and anything
non-numeric are not). -/
def decimalOK (cs : List Char) : Bool :=
  match decimalParts cs with
  | (ip, none) => ip.all Char.isDigit && !ip.isEmpty
  | (ip, some fp) =>
      ip.all Char.isDigit && fp.all Char.isDigit &&
        (!ip.isEmpty || !fp.isEmpty)

/-- Whether `Number()` coerces the string to a number (rather than
`NaN`): the empty string, or an optional sign followed by a well-formed
decimal literal. -/
def jsIsNumeric (s : String) : Bool :=
  s = "" || decimalOK (stripSign s.toList).2

/-- Numeric value of a string accepted by `jsIsNumeric`:
sign · (integer part + fractional digits / 10 ^ (their count));
the empty string has value `0`, exactly as in JavaScript. -/
def jsNumericValue (s : String) : ℚ :=
  if s = "" then 0
  else
    ((stripSign s.toList).1 : ℚ) *
      ((digitsVal (decimalParts (stripSign s.toList).2).1 : ℚ) +
        (digitsVal ((decimalParts (stripSign s.toList).2).2.getD []) : ℚ) /
          (10 : ℚ) ^ ((decimalParts (stripSign s.toList).2).2.getD []).length)

/-- Model of the JavaScript builtin `Number()` coercion on strings,
restricted to plain decimal literals with an optional sign (the shapes
relevant to the spec and claims; exotic literals such as hexadecimal,
exponents, `Infinity` or surrounding whitespace do not occur).  `none`
stands for `NaN`. -/
def jsStringToNumber (s : String) : Option ℚ :=
  if jsIsNumeric s then some (jsNumericValue s) else none

/-- The `Number(amount)` coercion applied by the POST handler, on every
`JSVal` shape, following the ECMAScript `ToNumber` table. -/
def JSVal.toNumber : JSVal → JSVal
  | .undef => .nan
  | .nullv => .num 0
  | .bool b => .num (if b then 1 else 0)
  | .num q => .num q
  | .nan => .nan
  | .str s =>
      match jsStringToNumber s with
      | some q => .num q
      | none => .nan

/-- An expense document, following `expenseSchema`: an owning `user`
(ObjectId, modelled as a string), a `description`, an `amount` (the
value the handler stores, i.e. after `Number()` coercion), and a `date`
(the schema default `Date.now`, modelled as a natural timestamp). -/
structure Expense where
  user : String
  description : JSVal
  amount : JSVal
  date : ℕ
deriving DecidableEq, Repr

/-- The JSON request body of `POST /expenses` as the handler can observe
it.  The handler destructures only `description` and `amount`
(`const { description, amount } = req.body`); the `user` and `date`
fields model client-supplied fields that the code never reads. -/
structure Body where
  description : JSVal
  amount : JSVal
  user : JSVal
  date : JSVal
deriving DecidableEq, Repr

/-- Bodies sent back by the two expense routes: a JSON array of
expenses, a single expense document, or a `{ message: ... }` object. -/
inductive RespBody where
  | expenseList (es : List Expense)
  | expense (e : Expense)
  | message (m : String)
deriving DecidableEq, Repr

/-- An HTTP response: status code plus JSON body. -/
structure Response where
  status : ℕ
  body : RespBody
deriving DecidableEq, Repr

/-- The explicit CORS allow-list from `server.js`. -/
def ALLOWED_ORIGINS : List String :=
  ["https://mern-endterm.vercel.app",
   "https://mern-endterm-czx9.vercel.app",
   "https://mern-endterm2.onrender.com",
   "http://localhost:3000"]

/-- Outcome of the CORS `origin` callback: `callback(null, true)` or
`callback(new Error(msg), false)`. -/
inductive CorsDecision where
  | allow
  | reject (msg : String)
deriving DecidableEq, Repr

/-- Model of the JavaScript string builtin `endsWith`: the suffix test
on the underlying character sequences. -/
def strEndsWith (s suf : String) : Bool :=
  List.isSuffixOf suf.toList s.toList

/-- The `origin` callback of the `cors` middleware.  Its first check is
`if (!origin) return callback(null, true)`: JS truthiness, so both an
absent origin header (`none`) and a present empty-string origin
(`some ""`) are allowed.  Otherwise an origin in `ALLOWED_ORIGINS` or
ending in `.vercel.app` or `.onrender.com` is allowed, and anything
else is rejected with a message naming the origin. -/
def corsOrigin : Option String → CorsDecision
  | none => .allow
  | some origin =>
      if origin = "" then .allow
      else if ALLOWED_ORIGINS.contains origin ||
          strEndsWith origin ".vercel.app" ||
          strEndsWith origin ".onrender.com" then
        .allow
      else
        .reject ("Origin " ++ origin ++
          " is not allowed by the server's CORS policy.")

/-- Insert an expense into a list that is sorted by `date` descending,
keeping it sorted (helper for the model of Mongo's
`.sort({ date: -1 })`). -/
def insertByDateDesc (e : Expense) : List Expense → List Expense
  | [] => [e]
  | x :: xs =>
      if x.date ≤ e.date then e :: x :: xs else x :: insertByDateDesc e xs

/-- Sort a list of expenses by `date` descending (newest first):
the model of Mongo's `.sort({ date: -1 })`. -/
def sortByDateDesc : List Expense → List Expense
  | [] => []
  | x :: xs => insertByDateDesc x (sortByDateDesc xs)

/-- The query issued by the GET handler,
`Expense.find({ user: req.user.id }).sort({ date: -1 })`: all documents
whose `user` equals the resolved identity, ordered by date descending. -/
def listByUser (userId : String) (db : List Expense) : List Expense :=
  sortByDateDesc (db.filter (fun e => e.user == userId))

/-- Handler of `GET /expenses`.  `userId` is `req.user.id` as attached
by the auth middleware; `db` is the expense collection; `findOutcome`
says whether the driver call succeeds or throws (the driver is external
to the repository).  On success the handler responds
`200` with the query result; a thrown error is caught and mapped to
`500 { message: error.message }`. -/
def getExpenses (userId : String) (db : List Expense)
    (findOutcome : Except String Unit) : Response :=
  match findOutcome with
  | .ok _ => { status := 200, body := .expenseList (listByUser userId db) }
  | .error msg => { status := 500, body := .message msg }

/-- Handler of `POST /expenses`.  Destructures `description` and
`amount` from the body; if either is falsy it responds
`400 "Description and amount are required."` without touching the
store.  Otherwise it builds
`new Expense({ user: req.user.id, description, amount: Number(amount) })`
(`date` defaulting to the server-side creation time `now`) and calls
`save()`: on success it responds `201` with the saved document and the
document is appended to the collection; a thrown error is caught and
mapped to `400 { message: error.message }` with the collection
unchanged.  Returns the response together with the resulting
collection. -/
def postExpenses (userId : String) (body : Body) (now : ℕ)
    (db : List Expense) (saveOutcome : Except String Unit) :
    Response × List Expense :=
  if !body.description.truthy || !body.amount.truthy then
    ({ status := 400, body := .message "Description and amount are required." },
     db)
  else
    let newExpense : Expense :=
      { user := userId, description := body.description,
        amount := body.amount.toNumber, date := now }
    match saveOutcome with
    | .ok _ => ({ status := 201, body := .expense newExpense },
        db ++ [newExpense])
    | .error msg => ({ status := 400, body := .message msg }, db)

/-- Observable state of the server process: serving requests (with the
store connection either still pending or established), or exited with a
code. -/
inductive ProcState where
  | serving (connected : Bool)
  | exited (code : ℕ)
deriving DecidableEq, Repr

/-- Settlement of the `mongoose.connect` promise, as handled in
`server.js`: `.then` logs and leaves the process serving with the
connection established; `.catch` logs the error and calls
`process.exit(1)` — observing the failure and exiting happen in the same
callback, atomically with respect to the event loop. -/
def settleConnection : ProcState → Except String Unit → ProcState
  | .serving _, .ok _ => .serving true
  | .serving _, .error _ => .exited 1
  | .exited c, _ => .exited c

/-- Number of requests (out of `n` arrivals) the process serves in a
given state: a serving process serves all of them, an exited process
serves none. -/
def serveRequests : ProcState → ℕ → ℕ
  | .serving _, n => n
  | .exited _, _ => 0

/-- Evaluation of the `Number()` model at the spec's example string:
`Number("3.50")` is exactly `3.5`. -/
theorem jsStringToNumber_eval_350 : jsStringToNumber "3.50" = some (7 / 2 : ℚ) := by
  have hnum : jsIsNumeric "3.50" = true := by decide
  have hval : jsNumericValue "3.50" = 7 / 2 := by
    rw [jsNumericValue, if_neg (by decide)]
    norm_num [show ("3.50" : String).toList = ['3', '.', '5', '0'] from rfl,
      show stripSign ['3', '.', '5', '0'] = (1, ['3', '.', '5', '0']) from rfl,
      show decimalParts ['3', '.', '5', '0'] = (['3'], some ['5', '0']) from rfl,
      show digitsVal ['3'] = 3 from rfl,
      show digitsVal ['5', '0'] = 50 from rfl]
  simp [jsStringToNumber, hnum, hval]

/-- Membership in `insertByDateDesc`: inserting adds exactly `e`. -/
theorem mem_insertByDateDesc {a e : Expense} {l : List Expense} :
    a ∈ insertByDateDesc e l ↔ a = e ∨ a ∈ l := by
  induction l with
  | nil => simp [insertByDateDesc]
  | cons x xs ih =>
      by_cases h : x.date ≤ e.date
      · simp [insertByDateDesc, h, List.mem_cons]
      · simp [insertByDateDesc, h, ih, List.mem_cons]
        tauto

/-- Inserting into a date-descending list keeps it date-descending. -/
theorem pairwise_insertByDateDesc {e : Expense} {l : List Expense}
    (hl : l.Pairwise (fun a b => b.date ≤ a.date)) :
    (insertByDateDesc e l).Pairwise (fun a b => b.date ≤ a.date) := by
  induction l with
  | nil => simp [insertByDateDesc]
  | cons x xs ih =>
      rw [List.pairwise_cons] at hl
      obtain ⟨hx, hxs⟩ := hl
      by_cases h : x.date ≤ e.date
      · rw [insertByDateDesc, if_pos h, List.pairwise_cons]
        refine ⟨?_, List.pairwise_cons.mpr ⟨hx, hxs⟩⟩
        intro b hb
        rcases List.mem_cons.mp hb with rfl | hb
        · exact h
        · exact le_trans (hx b hb) h
      · rw [insertByDateDesc, if_neg h, List.pairwise_cons]
        refine ⟨?_, ih hxs⟩
        intro b hb
        rcases mem_insertByDateDesc.mp hb with rfl | hb
        · exact le_of_not_le h
        · exact hx b hb

/-- The result of `sortByDateDesc` is sorted by date descending. -/
theorem pairwise_sortByDateDesc (l : List Expense) :
    (sortByDateDesc l).Pairwise (fun a b => b.date ≤ a.date) := by
  induction l with
  | nil => simp [sortByDateDesc]
  | cons x xs ih =>
      rw [sortByDateDesc]
      exact pairwise_insertByDateDesc ih

/-- `sortByDateDesc` neither adds nor removes elements. -/
theorem mem_sortByDateDesc {a : Expense} {l : List Expense} :
    a ∈ sortByDateDesc l ↔ a ∈ l := by
  induction l with
  | nil => simp [sortByDateDesc]
  | cons x xs ih =>
      simp [sortByDateDesc, mem_insertByDateDesc, ih, List.mem_cons]

/-- An expense appears in the GET query result exactly when it is in the
collection and owned by the queried user. -/
theorem mem_listByUser {a : Expense} {userId : String} {db : List Expense} :
    a ∈ listByUser userId db ↔ a ∈ db ∧ a.user = userId := by
  simp [listByUser, mem_sortByDateDesc, List.mem_filter]

/-- C1: per-user expense isolation.  For distinct users `A` and `B`,
the `GET /expenses` query for `A` contains only expenses owned by `A`
and never one owned by `B` (and symmetrically), and the GET handler
always responds with the query filtered by exactly the identity
resolved from the auth gate (its `userId` argument). -/
theorem C1_per_user_isolation (A B : String) (hAB : A ≠ B)
    (db : List Expense) :
    (∀ e ∈ listByUser A db, e.user = A) ∧
    (∀ e : Expense, e.user = B → e ∉ listByUser A db) ∧
    (∀ e ∈ listByUser B db, e.user = B) ∧
    (∀ e : Expense, e.user = A → e ∉ listByUser B db) ∧
    getExpenses A db (.ok ()) =
      { status := 200, body := .expenseList (listByUser A db) } := by
  refine ⟨?_, ?_, ?_, ?_, rfl⟩
  · intro e he
    exact (mem_listByUser.mp he).2
  · intro e heB hmem
    exact hAB (((mem_listByUser.mp hmem).2.symm.trans heB))
  · intro e he
    exact (mem_listByUser.mp he).2
  · intro e heA hmem
    exact hAB ((heA.symm.trans (mem_listByUser.mp hmem).2))

/-- Witness for C1 at two concrete users: an expense of user `b` is
not in user `a`'s listing. -/
theorem C1_per_user_isolation_witness :
    ("a" : String) ≠ "b" ∧
    (⟨"b", .str "x", .num 1, 0⟩ : Expense) ∉
      listByUser "a" [⟨"b", .str "x", .num 1, 0⟩] :=
  ⟨by decide,
    (C1_per_user_isolation "a" "b" (by decide)
      [⟨"b", .str "x", .num 1, 0⟩]).2.1 ⟨"b", .str "x", .num 1, 0⟩ rfl⟩

/-- C6: listing order.  For every authenticated user, the GET handler
responds with status 200 and a sequence that is sorted by date
descending (newest first) and contains exactly the user's expenses. -/
theorem C6_listing_order (userId : String) (db : List Expense) :
    (getExpenses userId db (.ok ())).status = 200 ∧
    ∃ l, (getExpenses userId db (.ok ())).body = .expenseList l ∧
      l.Pairwise (fun a b => b.date ≤ a.date) ∧
      ∀ e : Expense, e ∈ l ↔ (e ∈ db ∧ e.user = userId) := by
  refine ⟨rfl, listByUser userId db, rfl, ?_, ?_⟩
  · exact pairwise_sortByDateDesc (db.filter (fun e => e.user == userId))
  · intro e
    exact mem_listByUser

/-- Witness for C6 at a concrete store: listing returns newest first. -/
theorem C6_listing_order_witness :
    (getExpenses "u" [⟨"u", .str "old", .num 1, 3⟩,
        ⟨"u", .str "new", .num 2, 9⟩] (.ok ())).status = 200 :=
  (C6_listing_order "u" [⟨"u", .str "old", .num 1, 3⟩,
    ⟨"u", .str "new", .num 2, 9⟩]).1

/-- C10: an authenticated user owning no expenses gets status 200 with
an empty JSON array, not an error. -/
theorem C10_empty_list_ok (userId : String) (db : List Expense)
    (h : ∀ e ∈ db, e.user ≠ userId) :
    getExpenses userId db (.ok ()) =
      { status := 200, body := .expenseList [] } := by
  have hfilter : db.filter (fun e => e.user == userId) = [] := by
    rw [List.filter_eq_nil_iff]
    intro e he
    simpa using h e he
  rw [getExpenses]
  rw [show listByUser userId db = sortByDateDesc (db.filter (fun e => e.user == userId)) from rfl]
  rw [hfilter]
  rfl

/-- Witness for C10: a store holding only another user's expense yields
the empty listing for `u1`. -/
theorem C10_empty_list_ok_witness :
    getExpenses "u1" [⟨"u2", .str "x", .num 1, 0⟩] (.ok ()) =
      { status := 200, body := .expenseList [] } :=
  C10_empty_list_ok "u1" [⟨"u2", .str "x", .num 1, 0⟩] (by decide)

/-- C2: the owner is never client-supplied.  Whatever the POST handler
returns as the created expense is owned by the identity resolved by the
auth middleware (`req.user.id`), and two requests that agree on the
`description` and `amount` body fields — but may differ in a
client-supplied `user` (or any other) field — are handled identically. -/
theorem C2_owner_not_client_supplied (userId : String) (b1 b2 : Body)
    (now : ℕ) (db : List Expense) (sv : Except String Unit)
    (hd : b1.description = b2.description) (ha : b1.amount = b2.amount) :
    (∀ e : Expense, (postExpenses userId b1 now db sv).1.body = .expense e →
      e.user = userId) ∧
    postExpenses userId b1 now db sv = postExpenses userId b2 now db sv := by
  constructor
  · intro e he
    simp only [postExpenses] at he
    by_cases hc : (!b1.description.truthy || !b1.amount.truthy) = true
    · rw [if_pos hc] at he
      simp at he
    · rw [if_neg hc] at he
      cases sv with
      | ok u =>
          simp at he
          rw [← he]
      | error msg => simp at he
  · simp only [postExpenses, hd, ha]

/-- Witness for C2: a body carrying `user: "attacker"` and one carrying
`user: "other"` yield identical handler results. -/
theorem C2_owner_not_client_supplied_witness :
    (Body.mk (.str "coffee") (.num 5) (.str "attacker") .undef).description =
      (Body.mk (.str "coffee") (.num 5) (.str "other") .undef).description ∧
    postExpenses "u" (Body.mk (.str "coffee") (.num 5) (.str "attacker") .undef)
        0 [] (.ok ()) =
      postExpenses "u" (Body.mk (.str "coffee") (.num 5) (.str "other") .undef)
        0 [] (.ok ()) :=
  ⟨rfl,
    (C2_owner_not_client_supplied "u"
      (Body.mk (.str "coffee") (.num 5) (.str "attacker") .undef)
      (Body.mk (.str "coffee") (.num 5) (.str "other") .undef)
      0 [] (.ok ()) rfl rfl).2⟩

/-- C9: client-supplied dates are ignored.  The created expense's date
is always the server-side creation time, and two requests that agree on
`description`, `amount` and `user` body fields — differing only in a
client-supplied `date` field — are handled identically. -/
theorem C9_client_date_ignored (userId : String) (b1 b2 : Body)
    (now : ℕ) (db : List Expense) (sv : Except String Unit)
    (hd : b1.description = b2.description) (ha : b1.amount = b2.amount)
    (_hu : b1.user = b2.user) :
    (∀ e : Expense, (postExpenses userId b1 now db sv).1.body = .expense e →
      e.date = now) ∧
    postExpenses userId b1 now db sv = postExpenses userId b2 now db sv := by
  constructor
  · intro e he
    simp only [postExpenses] at he
    by_cases hc : (!b1.description.truthy || !b1.amount.truthy) = true
    · rw [if_pos hc] at he
      simp at he
    · rw [if_neg hc] at he
      cases sv with
      | ok u =>
          simp at he
          rw [← he]
      | error msg => simp at he
  · simp only [postExpenses, hd, ha]

/-- Witness for C9: a body with `date: "1999-01-01"` and one with no
date yield identical handler results. -/
theorem C9_client_date_ignored_witness :
    (Body.mk (.str "tea") (.num 2) .undef (.str "1999-01-01")).description =
      (Body.mk (.str "tea") (.num 2) .undef .undef).description ∧
    postExpenses "u" (Body.mk (.str "tea") (.num 2) .undef (.str "1999-01-01"))
        4 [] (.ok ()) =
      postExpenses "u" (Body.mk (.str "tea") (.num 2) .undef .undef)
        4 [] (.ok ()) :=
  ⟨rfl,
    (C9_client_date_ignored "u"
      (Body.mk (.str "tea") (.num 2) .undef (.str "1999-01-01"))
      (Body.mk (.str "tea") (.num 2) .undef .undef)
      4 [] (.ok ()) rfl rfl rfl).2⟩

/-- The origin callback allows a non-empty origin exactly when it is in
the allow-list or ends in one of the two trusted deployment domains. -/
theorem corsOrigin_allow_iff (o : String) (ho : o ≠ "") :
    corsOrigin (some o) = .allow ↔
      (o ∈ ALLOWED_ORIGINS ∨ strEndsWith o ".vercel.app" = true ∨
        strEndsWith o ".onrender.com" = true) := by
  simp only [corsOrigin]
  rw [if_neg ho]
  split_ifs with h
  · exact iff_of_true rfl
      (by simpa [Bool.or_eq_true, List.elem_iff, or_assoc] using h)
  · refine iff_of_false (by simp) ?_
    intro hcontra
    exact h (by simpa [Bool.or_eq_true, List.elem_iff, or_assoc] using hcontra)

/-- Counterexample to C5 as stated: a present empty-string origin is
neither in the allow-list nor suffixed by a trusted deployment domain,
so the claim requires it to be rejected — but the callback's JS falsy
check `!origin` allows it. -/
theorem C5_cors_counterexample :
    corsOrigin (some "") = .allow ∧
    ("" ∉ ALLOWED_ORIGINS) ∧
    strEndsWith "" ".vercel.app" = false ∧
    strEndsWith "" ".onrender.com" = false := by
  refine ⟨rfl, by decide, by decide, by decide⟩

/-- C5 as amended: the cross-origin policy is the pure predicate over
the origin string: a request with no origin header — or with a present
but empty origin, which the JS falsy check `!origin` treats the same
way — is allowed; a non-empty origin in the allow-list or ending in
`.vercel.app` or `.onrender.com` is allowed; every other origin is
rejected with an error message naming it. -/
theorem C5_cors_policy_amended :
    corsOrigin none = .allow ∧
    corsOrigin (some "") = .allow ∧
    (∀ o : String, o ≠ "" →
      (corsOrigin (some o) = .allow ↔
        (o ∈ ALLOWED_ORIGINS ∨ strEndsWith o ".vercel.app" = true ∨
          strEndsWith o ".onrender.com" = true))) ∧
    (∀ o : String, corsOrigin (some o) ≠ .allow →
      corsOrigin (some o) =
        .reject ("Origin " ++ o ++
          " is not allowed by the server's CORS policy.")) := by
  refine ⟨rfl, rfl, corsOrigin_allow_iff, ?_⟩
  intro o hno
  simp only [corsOrigin] at hno ⊢
  split_ifs at hno ⊢ with h h'
  · exact absurd rfl hno
  · exact absurd rfl hno
  · rfl

/-- Witness for C5 as amended, at a concrete disallowed origin. -/
theorem C5_cors_policy_amended_witness :
    ("https://evil.example" : String) ≠ "" ∧
    corsOrigin (some "https://evil.example") =
      .reject "Origin https://evil.example is not allowed by the server's CORS policy." := by
  refine ⟨by decide, ?_⟩
  rw [C5_cors_policy_amended.2.2.2 "https://evil.example" (by decide)]
  decide

/-- Counterexample to C3 as stated: the request
`{description: "lunch", amount: 0}` has a present, non-empty
description and a present numeric amount (zero), yet the handler
responds 400 and persists nothing, because the guard
`!description || !amount` treats the number `0` as falsy. -/
theorem C3_validation_counterexample :
    (postExpenses "u1" ⟨.str "lunch", .num 0, .undef, .undef⟩ 7 []
      (.ok ())).1.status = 400 ∧
    (postExpenses "u1" ⟨.str "lunch", .num 0, .undef, .undef⟩ 7 []
      (.ok ())).2 = [] :=
  ⟨rfl, rfl⟩

/-- C3 as amended: with persistence succeeding, the POST handler
responds 400 `"Description and amount are required."` and persists
nothing exactly when the description is falsy (absent or empty) or the
amount is falsy (absent, empty string, the number 0, `NaN`, or
`false`); every request whose description and amount are both truthy —
including a non-numeric truthy string amount, which only fails later at
the persistence layer — passes the guard and is persisted with the
amount coerced by `Number()`. -/
theorem C3_validation_amended (userId : String) (b : Body) (now : ℕ)
    (db : List Expense) :
    ((postExpenses userId b now db (.ok ())).1 =
        { status := 400,
          body := .message "Description and amount are required." } ∧
      (postExpenses userId b now db (.ok ())).2 = db
      ↔ (b.description.truthy = false ∨ b.amount.truthy = false)) ∧
    (b.description.truthy = true → b.amount.truthy = true →
      (postExpenses userId b now db (.ok ())).1.status = 201 ∧
      (postExpenses userId b now db (.ok ())).2 =
        db ++ [⟨userId, b.description, b.amount.toNumber, now⟩]) := by
  by_cases hd : b.description.truthy <;> by_cases ha : b.amount.truthy <;>
    simp [postExpenses, hd, ha]

/-- Witness for C3 as amended, at a concrete valid request. -/
theorem C3_validation_amended_witness :
    (JSVal.str "tea").truthy = true ∧
    (postExpenses "u" ⟨.str "tea", .num 2, .undef, .undef⟩ 4 []
      (.ok ())).1.status = 201 :=
  ⟨by decide,
    ((C3_validation_amended "u" ⟨.str "tea", .num 2, .undef, .undef⟩ 4 []).2
      (by decide) (by decide)).1⟩

/-- Counterexample to C4 as stated: on a valid POST whose `save()`
fails, the handler responds 400 — not 500 as the claim requires — with
the driver's message. -/
theorem C4_persistence_counterexample :
    (postExpenses "u1" ⟨.str "coffee", .num 5, .undef, .undef⟩ 0 []
      (.error "boom")).1 = { status := 400, body := .message "boom" } ∧
    (postExpenses "u1" ⟨.str "coffee", .num 5, .undef, .undef⟩ 0 []
      (.error "boom")).1.status ≠ 500 :=
  ⟨rfl, by decide⟩

/-- C4 as amended: a persistence failure in GET is caught and mapped to
500 with the underlying message; a persistence failure in POST is
caught and mapped to 400 with the underlying message (and nothing is
persisted); validation errors are decided before any persistence call —
when validation fails, the handler's outcome does not depend on the
persistence outcome at all. -/
theorem C4_persistence_failure_amended (userId : String)
    (db : List Expense) (msg : String) (b : Body) (now : ℕ) :
    getExpenses userId db (.error msg) =
      { status := 500, body := .message msg } ∧
    (b.description.truthy = true → b.amount.truthy = true →
      (postExpenses userId b now db (.error msg)).1 =
        { status := 400, body := .message msg } ∧
      (postExpenses userId b now db (.error msg)).2 = db) ∧
    ((b.description.truthy = false ∨ b.amount.truthy = false) →
      ∀ sv sv' : Except String Unit,
        postExpenses userId b now db sv = postExpenses userId b now db sv') := by
  refine ⟨rfl, ?_, ?_⟩
  · intro hd ha
    simp [postExpenses, hd, ha]
  · intro hfal sv sv'
    rcases hfal with h | h <;> simp [postExpenses, h]

/-- C7: amount coercion.  A POST whose amount is a (non-empty) numeric
string and whose description is truthy creates, under successful
persistence, a 201 response carrying the record whose stored amount is
the exact numeric value of that string. -/
theorem C7_amount_coercion (userId : String) (desc : JSVal) (s : String)
    (q : ℚ) (now : ℕ) (db : List Expense)
    (hdesc : desc.truthy = true) (hs : s ≠ "")
    (hq : jsStringToNumber s = some q) :
    postExpenses userId ⟨desc, .str s, .undef, .undef⟩ now db (.ok ()) =
      ({ status := 201, body := .expense ⟨userId, desc, .num q, now⟩ },
       db ++ [⟨userId, desc, .num q, now⟩]) := by
  have htr : (JSVal.str s).truthy = true := by
    simp [JSVal.truthy, hs]
  have htn : (JSVal.str s).toNumber = .num q := by
    simp [JSVal.toNumber, hq]
  simp [postExpenses, hdesc, htr, htn]

/-- Witness for C7 at the spec's example: `amount: "3.50"` is stored as
the number `3.5` and answered with 201. -/
theorem C7_amount_coercion_witness :
    (JSVal.str "coffee").truthy = true ∧ ("3.50" : String) ≠ "" ∧
    jsStringToNumber "3.50" = some (7 / 2 : ℚ) ∧
    postExpenses "u" ⟨.str "coffee", .str "3.50", .undef, .undef⟩ 0 []
        (.ok ()) =
      ({ status := 201,
         body := .expense ⟨"u", .str "coffee", .num (7 / 2), 0⟩ },
       [⟨"u", .str "coffee", .num (7 / 2), 0⟩]) :=
  ⟨by decide, by decide, jsStringToNumber_eval_350,
    C7_amount_coercion "u" (.str "coffee") "3.50" (7 / 2) 0 []
      (by decide) (by decide) jsStringToNumber_eval_350⟩

/-- C8: fail-fast startup.  If the connection to the persistence layer
settles with an error, the `.catch` callback — which observes the
failure and calls `process.exit(1)` atomically with respect to the
event loop — leaves the process exited with code 1, and an exited
process serves none of any subsequently arriving requests.  (Before the
settlement the connection has not failed: the process is serving with
the connection pending, which is the state `app.listen` starts it in.) -/
theorem C8_fail_fast_startup (e : String) (n : ℕ) :
    settleConnection (.serving false) (.error e) = .exited 1 ∧
    serveRequests (settleConnection (.serving false) (.error e)) n = 0 :=
  ⟨rfl, rfl⟩

/-- Witness for C4 as amended, at a concrete failing driver call: GET
maps the failure to 500 with the driver's message. -/
theorem C4_persistence_failure_amended_witness :
    getExpenses "u" [] (.error "down") =
      { status := 500, body := .message "down" } :=
  (C4_persistence_failure_amended "u" [] "down"
    ⟨.str "x", .num 1, .undef, .undef⟩ 0).1
